import Mathlib

/-!
Verification of the CLINT (Core-Local Interrupt controller) driver of the
K210 FreeRTOS SDK against its design specification.

The register map, its constants and the packed struct layout are embedded
from src/lib/hal/include/clint.h.  The struct clint_t carries the
attribute packed, so every field offset is the cumulative sum of the sizes
of the fields before it; we embed offsets as exactly those sums.

The bodies of the IPI lifecycle operations (clint_ipi_init, clint_ipi_enable,
clint_ipi_disable, clint_ipi_send, clint_ipi_clear) live in a .c file that is
not part of the sources at hand; only their declarations are in clint.h.
Those operations are therefore modelled from the specification text, over an
explicit state holding the MSIP register words, the address-mapping flag and
the core-local enable flag.
-/

/-- Register address offset constant CLINT_MSIP from clint.h. -/
def CLINT_MSIP : Nat := 0x0000

/-- Register size constant CLINT_MSIP_SIZE from clint.h. -/
def CLINT_MSIP_SIZE : Nat := 0x4

/-- Register address offset constant CLINT_MTIMECMP from clint.h. -/
def CLINT_MTIMECMP : Nat := 0x4000

/-- Register size constant CLINT_MTIMECMP_SIZE from clint.h. -/
def CLINT_MTIMECMP_SIZE : Nat := 0x8

/-- Register address offset constant CLINT_MTIME from clint.h. -/
def CLINT_MTIME : Nat := 0xBFF8

/-- Register size constant CLINT_MTIME_SIZE from clint.h. -/
def CLINT_MTIME_SIZE : Nat := 0x8

/-- Max number of cores the mapping supports, CLINT_MAX_CORES from clint.h. -/
def CLINT_MAX_CORES : Nat := 4095

/-- Real number of cores of the platform, CLINT_NUM_CORES from clint.h. -/
def CLINT_NUM_CORES : Nat := 2

/-- Clock frequency division factor, CLINT_CLOCK_DIV from clint.h. -/
def CLINT_CLOCK_DIV : Nat := 50

/-- Width in bits of the msip bitfield of clint_msip_t (uint32_t msip : 1). -/
def msipFieldBits : Nat := 1

/-- Width in bits of the zero bitfield of clint_msip_t (uint32_t zero : 31). -/
def zeroFieldBits : Nat := 31

/-- Size in bytes of clint_msip_t: a packed, 4-aligned struct of two
bitfields filling one uint32_t word. -/
def sizeof_clint_msip_t : Nat := (msipFieldBits + zeroFieldBits) / 8

/-- Size in bytes of clint_mtimecmp_t, a uint64_t. -/
def sizeof_clint_mtimecmp_t : Nat := 8

/-- Size in bytes of clint_mtime_t, a uint64_t. -/
def sizeof_clint_mtime_t : Nat := 8

/-- Size in bytes of the uint32_t resv0 field of clint_t. -/
def sizeof_uint32_t : Nat := 4

/-- Byte offset of msip[i] inside the packed struct clint_t: the msip array
is the first field. -/
def offset_msip (i : Nat) : Nat := i * sizeof_clint_msip_t

/-- Byte offset of the resv0 field of clint_t: right after the msip array of
CLINT_MAX_CORES entries, with no padding (the struct is packed). -/
def offset_resv0 : Nat := CLINT_MAX_CORES * sizeof_clint_msip_t

/-- Byte offset of mtimecmp[i] inside the packed struct clint_t: the
mtimecmp array follows resv0 directly. -/
def offset_mtimecmp (i : Nat) : Nat :=
  offset_resv0 + sizeof_uint32_t + i * sizeof_clint_mtimecmp_t

/-- Byte offset of the mtime field of clint_t: right after the mtimecmp
array of CLINT_MAX_CORES entries. -/
def offset_mtime : Nat :=
  offset_resv0 + sizeof_uint32_t + CLINT_MAX_CORES * sizeof_clint_mtimecmp_t

/-- Size in bytes of the packed struct clint_t: msip array, resv0, mtimecmp
array, mtime, with no padding. -/
def sizeof_clint_t : Nat := offset_mtime + sizeof_clint_mtime_t

/-- Base physical address of the CLINT block, from the layout table in the
doc comment of clint.h (0x02000000). -/
def CLINT_BASE_ADDR : Nat := 0x02000000

/-- Start offset of the reserved region, from the layout table in the doc
comment of clint.h (first reserved address 0x0200C000). -/
def reservedRegionStart : Nat := 0x0200C000 - CLINT_BASE_ADDR

/-- End offset (exclusive) of the reserved region: the layout table lists
reserved words up to address 0x0200EFFC, a 4-byte word, so the region ends
at offset 0xEFFC + 4. -/
def reservedRegionEnd : Nat := (0x0200EFFC - CLINT_BASE_ADDR) + 4

/-- Size in bytes of the reserved region of the documented hardware map. -/
def reservedRegionSize : Nat := reservedRegionEnd - reservedRegionStart

/-- Modelled from the spec: the hardware state the IPI controller acts on.
The bodies of the IPI operations are not among the sources (only clint.h
is), so the state they manipulate is made explicit: the 32-bit MSIP register
word of every core index, whether the base address mapping is established,
and the core-local software-interrupt enable line (a control register
outside the CLINT block). -/
structure ClintState where
  msip : Nat → Nat
  mapped : Bool
  swIntEnabled : Bool

/-- Write the 32-bit MSIP register word of core index i (values truncate to
32 bits, as for any uint32_t store). -/
def writeMsip (s : ClintState) (i : Nat) (v : Nat) : ClintState :=
  { s with msip := fun j => if j = i then v % 2 ^ 32 else s.msip j }

/-- Read bit 0 of the MSIP register word of core index i. -/
def readMsipBit (s : ClintState) (i : Nat) : Nat := s.msip i % 2

/-- Modelled from the spec: clint_ipi_init (body not among the sources).
Validates the platform core count against CLINT_MAX_CORES, establishes the
base address mapping, and leaves the per-core MSIP bits of the real cores
cleared.  Returns 0 on success, -1 on failure. -/
def clint_ipi_init (s : ClintState) : Int × ClintState :=
  if CLINT_MAX_CORES < CLINT_NUM_CORES then (-1, s)
  else
    (0, { s with
            msip := fun i => if i < CLINT_NUM_CORES then 0 else s.msip i,
            mapped := true })

/-- Modelled from the spec: clint_ipi_enable (body not among the sources).
Unmasks the local software-interrupt line of the calling core; touches no
MSIP register.  Returns 0 on success. -/
def clint_ipi_enable (s : ClintState) : Int × ClintState :=
  (0, { s with swIntEnabled := true })

/-- Modelled from the spec: clint_ipi_disable (body not among the sources).
Masks the local software-interrupt line; must not clear any pending MSIP
bit.  Returns 0 on success. -/
def clint_ipi_disable (s : ClintState) : Int × ClintState :=
  (0, { s with swIntEnabled := false })

/-- Modelled from the spec: clint_ipi_send (body not among the sources).
Precondition core_id < CLINT_NUM_CORES, else fails with -1 without touching
hardware; otherwise posts the IPI with a single store of the constant word 1
(bit 0 set) to the MSIP register of the target core and returns 0.  No
read-modify-write: the stored word does not depend on the prior register
contents. -/
def clint_ipi_send (core_id : Nat) (s : ClintState) : Int × ClintState :=
  if CLINT_NUM_CORES ≤ core_id then (-1, s)
  else (0, writeMsip s core_id 1)

/-- Modelled from the spec: clint_ipi_clear (body not among the sources).
Precondition core_id < CLINT_NUM_CORES, else fails with -1 without touching
hardware.  Reports -1 when the register access itself cannot complete
(address mapping lost).  Otherwise reads the MSIP bit: if 1, writes 0 and
returns 1 (an IPI was pending); if 0, writes 0 anyway and returns 0 (no IPI
was pending). -/
def clint_ipi_clear (core_id : Nat) (s : ClintState) : Int × ClintState :=
  if CLINT_NUM_CORES ≤ core_id then (-1, s)
  else if s.mapped = false then (-1, s)
  else if readMsipBit s core_id = 1 then (1, writeMsip s core_id 0)
  else (0, writeMsip s core_id 0)

/-- The five operations of the component, as a syntactic type so that a
statement can quantify over every operation. -/
inductive ClintOp where
  | ipiInit : ClintOp
  | ipiEnable : ClintOp
  | ipiDisable : ClintOp
  | ipiSend (core_id : Nat) : ClintOp
  | ipiClear (core_id : Nat) : ClintOp

/-- State transformer of one operation of the component. -/
def applyOp (op : ClintOp) (s : ClintState) : ClintState :=
  match op with
  | ClintOp.ipiInit => (clint_ipi_init s).2
  | ClintOp.ipiEnable => (clint_ipi_enable s).2
  | ClintOp.ipiDisable => (clint_ipi_disable s).2
  | ClintOp.ipiSend c => (clint_ipi_send c s).2
  | ClintOp.ipiClear c => (clint_ipi_clear c s).2

/-- Bits 1 to 31 of every MSIP register word are zero, i.e. every stored
word is at most 1. -/
def msipReservedBitsZero (s : ClintState) : Prop := ∀ i, s.msip i ≤ 1

/-- A concrete state with every MSIP word 0, the mapping established and
interrupts masked. -/
def stateAllZero : ClintState :=
  { msip := fun _ => 0, mapped := true, swIntEnabled := false }

/-- A concrete state with the MSIP bit of core 0 set, the mapping
established and interrupts masked. -/
def statePending0 : ClintState :=
  { msip := fun i => if i = 0 then 1 else 0, mapped := true,
    swIntEnabled := false }

/-- C1: in the packed struct clint_t, the byte offset of MSIP[1] is 4, the
byte offset of MTIMECMP[0] is 0x4000 and the byte offset of MTIME is 0xBFF8,
and these offsets agree with the declared constants CLINT_MSIP (0x0000),
CLINT_MTIMECMP (0x4000) and CLINT_MTIME (0xBFF8) together with the declared
register sizes. -/
theorem clint_layout_offsets_agree :
    offset_msip 1 = 4 ∧
    offset_mtimecmp 0 = 0x4000 ∧
    offset_mtime = 0xBFF8 ∧
    CLINT_MSIP = 0x0000 ∧
    CLINT_MTIMECMP = 0x4000 ∧
    CLINT_MTIME = 0xBFF8 ∧
    (∀ i, offset_msip i = CLINT_MSIP + i * CLINT_MSIP_SIZE) ∧
    (∀ i, offset_mtimecmp i = CLINT_MTIMECMP + i * CLINT_MTIMECMP_SIZE) ∧
    offset_mtime = CLINT_MTIME := by
  refine ⟨by decide, by decide, by decide, by decide, by decide, by decide,
    ?_, ?_, by decide⟩
  · intro i
    simp [offset_msip, CLINT_MSIP, CLINT_MSIP_SIZE, sizeof_clint_msip_t,
      msipFieldBits, zeroFieldBits]
  · intro i
    simp [offset_mtimecmp, offset_resv0, CLINT_MTIMECMP, CLINT_MTIMECMP_SIZE,
      sizeof_clint_mtimecmp_t, sizeof_clint_msip_t, sizeof_uint32_t,
      CLINT_MAX_CORES, msipFieldBits, zeroFieldBits]

/-- C4: the declared CLINT layout (MSIP array, reserved word, MTIMECMP
array, MTIME) plus the documented reserved region occupies exactly 0xF000
bytes in that order: each part starts exactly where the previous one ends
(no padding beyond the single reserved 32-bit word resv0 after the MSIP
array), and the reserved region ends at offset 0xF000. -/
theorem clint_layout_total_span :
    offset_resv0 = offset_msip CLINT_MAX_CORES ∧
    offset_mtimecmp 0 = offset_resv0 + sizeof_uint32_t ∧
    offset_mtime = offset_mtimecmp CLINT_MAX_CORES ∧
    sizeof_clint_t = offset_mtime + sizeof_clint_mtime_t ∧
    reservedRegionStart = sizeof_clint_t ∧
    reservedRegionEnd = 0xF000 ∧
    sizeof_clint_t + reservedRegionSize = 0xF000 := by
  decide

/-- C9: the configuration constants satisfy the stated bounds:
CLINT_MAX_CORES is 4095, CLINT_NUM_CORES is the platform core count 2 and
is at most CLINT_MAX_CORES, and the clock-division factor CLINT_CLOCK_DIV
is declared (with value 50). -/
theorem clint_config_constants :
    CLINT_MAX_CORES = 4095 ∧
    CLINT_NUM_CORES = 2 ∧
    CLINT_NUM_CORES ≤ CLINT_MAX_CORES ∧
    CLINT_CLOCK_DIV = 50 := by
  decide

/-- C10: the declared struct clint_t spans exactly 0xC000 bytes: the MSIP
array occupies bytes 0 to 0x3FFB, resv0 ends at byte 0x3FFF, the MTIMECMP
array ends at byte 0xBFF7, mtime ends at byte 0xBFFF, and the documented
reserved region 0xC000 to 0xEFFC lies entirely at or beyond the struct end,
hence is not part of the declared type. -/
theorem clint_struct_size_excludes_reserved :
    sizeof_clint_t = 0xC000 ∧
    offset_msip CLINT_MAX_CORES - 1 = 0x3FFB ∧
    offset_resv0 + sizeof_uint32_t - 1 = 0x3FFF ∧
    offset_mtimecmp CLINT_MAX_CORES - 1 = 0xBFF7 ∧
    offset_mtime + sizeof_clint_mtime_t - 1 = 0xBFFF ∧
    sizeof_clint_t ≤ reservedRegionStart := by
  decide

/-- C2: for core_id < CLINT_NUM_CORES, clint_ipi_clear is three-way: when
the access completes and the MSIP bit is 1 it writes 0 and returns 1 (an
IPI was pending); when the bit is 0 it writes 0 anyway and returns 0 (no
IPI was pending); and it returns the distinct failure value -1 exactly when
the register access cannot complete (the mapping is lost). -/
theorem clint_ipi_clear_tristate (core_id : Nat) (s : ClintState)
    (h : core_id < CLINT_NUM_CORES) :
    (s.mapped = true → readMsipBit s core_id = 1 →
      (clint_ipi_clear core_id s).1 = 1 ∧
      readMsipBit (clint_ipi_clear core_id s).2 core_id = 0) ∧
    (s.mapped = true → readMsipBit s core_id = 0 →
      (clint_ipi_clear core_id s).1 = 0 ∧
      readMsipBit (clint_ipi_clear core_id s).2 core_id = 0) ∧
    ((clint_ipi_clear core_id s).1 = -1 ↔ s.mapped = false) := by
  have hn : ¬ CLINT_NUM_CORES ≤ core_id := Nat.not_le.mpr h
  cases hm : s.mapped with
  | false => simp [clint_ipi_clear, hn, hm]
  | true =>
    rcases Nat.mod_two_eq_zero_or_one (s.msip core_id) with hb | hb
    · simp [clint_ipi_clear, hn, hm, readMsipBit, hb, writeMsip]
    · simp [clint_ipi_clear, hn, hm, readMsipBit, hb, writeMsip]

/-- Witness for C2 at core_id 0 on a state with the bit set. -/
theorem clint_ipi_clear_tristate_witness :
    (clint_ipi_clear 0 statePending0).1 = 1 ∧
    readMsipBit (clint_ipi_clear 0 statePending0).2 0 = 0 :=
  (clint_ipi_clear_tristate 0 statePending0 (by decide)).1 rfl rfl

/-- C3: for core_id ≥ CLINT_NUM_CORES, both clint_ipi_send and
clint_ipi_clear return the failure value -1 and leave the hardware state
unchanged; the bound checked is CLINT_NUM_CORES, not CLINT_MAX_CORES, so
this holds already for core_id between the two. -/
theorem clint_ipi_out_of_range (core_id : Nat) (s : ClintState)
    (h : CLINT_NUM_CORES ≤ core_id) :
    (clint_ipi_send core_id s).1 = -1 ∧
    (clint_ipi_send core_id s).2 = s ∧
    (clint_ipi_clear core_id s).1 = -1 ∧
    (clint_ipi_clear core_id s).2 = s := by
  simp [clint_ipi_send, clint_ipi_clear, h]

/-- Witness for C3 at core_id 2, which is at least CLINT_NUM_CORES yet
below CLINT_MAX_CORES. -/
theorem clint_ipi_out_of_range_witness :
    CLINT_NUM_CORES ≤ 2 ∧ 2 < CLINT_MAX_CORES ∧
    ((clint_ipi_send 2 stateAllZero).1 = -1 ∧
     (clint_ipi_send 2 stateAllZero).2 = stateAllZero ∧
     (clint_ipi_clear 2 stateAllZero).1 = -1 ∧
     (clint_ipi_clear 2 stateAllZero).2 = stateAllZero) :=
  ⟨by decide, by decide, clint_ipi_out_of_range 2 stateAllZero (by decide)⟩

/-- C6: for core_id < CLINT_NUM_CORES, clint_ipi_send succeeds (returns 0)
and afterwards the MSIP bit of core_id reads 1; the posted register word is
independent of the prior state (a single constant store, no
read-modify-write). -/
theorem clint_ipi_send_sets_bit (core_id : Nat) (s t : ClintState)
    (h : core_id < CLINT_NUM_CORES) :
    (clint_ipi_send core_id s).1 = 0 ∧
    readMsipBit (clint_ipi_send core_id s).2 core_id = 1 ∧
    (clint_ipi_send core_id s).2.msip core_id =
      (clint_ipi_send core_id t).2.msip core_id := by
  have hn : ¬ CLINT_NUM_CORES ≤ core_id := Nat.not_le.mpr h
  simp [clint_ipi_send, hn, readMsipBit, writeMsip]

/-- Witness for C6 at core_id 0 over two different starting states. -/
theorem clint_ipi_send_sets_bit_witness :
    (clint_ipi_send 0 stateAllZero).1 = 0 ∧
    readMsipBit (clint_ipi_send 0 stateAllZero).2 0 = 1 ∧
    (clint_ipi_send 0 stateAllZero).2.msip 0 =
      (clint_ipi_send 0 statePending0).2.msip 0 :=
  clint_ipi_send_sets_bit 0 stateAllZero statePending0 (by decide)

/-- C7: clint_ipi_clear is idempotent: for core_id < CLINT_NUM_CORES with
the access completing and the MSIP bit 1, the clear returns 1 and leaves
the bit 0, and an immediately repeated clear returns 0 and leaves the bit
0. -/
theorem clint_ipi_clear_idempotent (core_id : Nat) (s : ClintState)
    (h : core_id < CLINT_NUM_CORES) (hm : s.mapped = true)
    (hb : readMsipBit s core_id = 1) :
    (clint_ipi_clear core_id s).1 = 1 ∧
    readMsipBit (clint_ipi_clear core_id s).2 core_id = 0 ∧
    (clint_ipi_clear core_id (clint_ipi_clear core_id s).2).1 = 0 ∧
    readMsipBit (clint_ipi_clear core_id (clint_ipi_clear core_id s).2).2
      core_id = 0 := by
  have hn : ¬ CLINT_NUM_CORES ≤ core_id := Nat.not_le.mpr h
  simp [clint_ipi_clear, hn, hm, readMsipBit, writeMsip] at hb ⊢
  simp [hb]

/-- Witness for C7 at core_id 0 on a state with the bit set. -/
theorem clint_ipi_clear_idempotent_witness :
    (clint_ipi_clear 0 statePending0).1 = 1 ∧
    readMsipBit (clint_ipi_clear 0 statePending0).2 0 = 0 ∧
    (clint_ipi_clear 0 (clint_ipi_clear 0 statePending0).2).1 = 0 ∧
    readMsipBit (clint_ipi_clear 0 (clint_ipi_clear 0 statePending0).2).2
      0 = 0 :=
  clint_ipi_clear_idempotent 0 statePending0 (by decide) rfl rfl

/-- C8: round-trip: for core_id < CLINT_NUM_CORES starting with the MSIP
bit 0 and the access completing, clint_ipi_send succeeds and the
immediately following clint_ipi_clear returns 1 (an IPI was pending) and
restores the bit to 0. -/
theorem clint_send_clear_round_trip (core_id : Nat) (s : ClintState)
    (h : core_id < CLINT_NUM_CORES) (hm : s.mapped = true)
    (hb : readMsipBit s core_id = 0) :
    (clint_ipi_send core_id s).1 = 0 ∧
    (clint_ipi_clear core_id (clint_ipi_send core_id s).2).1 = 1 ∧
    readMsipBit (clint_ipi_clear core_id (clint_ipi_send core_id s).2).2
      core_id = 0 := by
  have hn : ¬ CLINT_NUM_CORES ≤ core_id := Nat.not_le.mpr h
  simp [clint_ipi_send, clint_ipi_clear, hn, hm, readMsipBit, writeMsip]

/-- Witness for C8 at core_id 0 on the all-zero state. -/
theorem clint_send_clear_round_trip_witness :
    (clint_ipi_send 0 stateAllZero).1 = 0 ∧
    (clint_ipi_clear 0 (clint_ipi_send 0 stateAllZero).2).1 = 1 ∧
    readMsipBit (clint_ipi_clear 0 (clint_ipi_send 0 stateAllZero).2).2
      0 = 0 :=
  clint_send_clear_round_trip 0 stateAllZero (by decide) rfl rfl

/-- C5: the declared register type clint_msip_t is a 1-bit msip field plus
a 31-bit zero field occupying exactly one 4-byte word, and no operation of
the component ever makes bits 1 to 31 of an MSIP register word nonzero:
every operation preserves the invariant that each stored word is at most
1. -/
theorem clint_msip_reserved_bits_invariant (op : ClintOp) (s : ClintState)
    (hinv : msipReservedBitsZero s) :
    (msipFieldBits = 1 ∧ zeroFieldBits = 31 ∧
     msipFieldBits + zeroFieldBits = 32 ∧ sizeof_clint_msip_t = 4) ∧
    msipReservedBitsZero (applyOp op s) := by
  refine ⟨by decide, ?_⟩
  cases op with
  | ipiInit =>
    intro i
    simp only [applyOp, clint_ipi_init]
    split
    · exact hinv i
    · simp only []
      split
      · exact Nat.zero_le 1
      · exact hinv i
  | ipiEnable =>
    intro i
    exact hinv i
  | ipiDisable =>
    intro i
    exact hinv i
  | ipiSend c =>
    intro i
    simp only [applyOp, clint_ipi_send]
    split
    · exact hinv i
    · simp only [writeMsip]
      split
      · norm_num
      · exact hinv i
  | ipiClear c =>
    intro i
    simp only [applyOp, clint_ipi_clear]
    split
    · exact hinv i
    · split
      · exact hinv i
      · split
        · simp only [writeMsip]
          split
          · norm_num
          · exact hinv i
        · simp only [writeMsip]
          split
          · norm_num
          · exact hinv i

/-- Witness for C5: sending an IPI to core 0 from the all-zero state keeps
the reserved bits of every MSIP word zero. -/
theorem clint_msip_reserved_bits_invariant_witness :
    (msipFieldBits = 1 ∧ zeroFieldBits = 31 ∧
     msipFieldBits + zeroFieldBits = 32 ∧ sizeof_clint_msip_t = 4) ∧
    msipReservedBitsZero (applyOp (ClintOp.ipiSend 0) stateAllZero) :=
  clint_msip_reserved_bits_invariant (ClintOp.ipiSend 0) stateAllZero
    (fun _ => Nat.zero_le 1)
